import Mathlib

/-!
Shallow embedding of `src/src/main.rs` (the `psbt_guide` program).

The program drives a PSBT workflow against a Bitcoin Core node over
JSON-RPC.  We embed:

* JSON values (`Json`) and the serde-style decoders the program uses
  (`deserialize_response` applied to each expected result type);
* the transport (`send_rpc_request`), with the environment modelled as a
  partial map `String → Option String` and the node modelled as a
  function from the issued request to its reply;
* each pipeline stage function (`create_psbt`, `join_psbt`,
  `wallet_process_psbt`, `combine_psbt`, `finalize_psbt`,
  `broadcast_transaction`) and `main`.

Effects are made explicit: every function returns the list of RPC
requests it issued together with an outcome that distinguishes a normal
value, a propagated transport error (Rust `Err`), and a panic (Rust
`expect` / `unwrap` on `None`).  Floating-point JSON numbers are carried
as exact rationals; the program never computes with them, it only passes
them through.
-/

/-- JSON values as produced by serde_json. -/
inductive Json where
  | null
  | bool (b : Bool)
  | num (q : Rat)
  | str (s : String)
  | arr (elems : List Json)
  | obj (fields : List (String × Json))

/-- First binding of a key in a JSON object, serde_json map lookup. -/
def jsonLookup (key : String) : List (String × Json) → Option Json
  | [] => none
  | (k, v) :: rest => if k = key then some v else jsonLookup key rest

/-- Rust `&response["result"]`: indexing a serde_json `Value` with a string
key yields the field when the value is an object containing it and `Null`
otherwise. -/
def getResult (response : Json) : Json :=
  match response with
  | .obj fields => (jsonLookup "result" fields).getD .null
  | _ => .null

/-- Rust struct `Psbt` (result shape of `walletcreatefundedpsbt`). -/
structure Psbt where
  psbt : String
  fee : Rat
  changepos : Int
deriving DecidableEq, Repr

/-- Rust struct `WalletProcessPsbt` (result shape of `walletprocesspsbt`). -/
structure WalletProcessPsbt where
  psbt : String
  complete : Bool
deriving DecidableEq, Repr

/-- Rust struct `FinalizedPsbtResponse` (result shape of `finalizepsbt`). -/
structure FinalizedPsbtResponse where
  hex : String
  complete : Bool
deriving DecidableEq, Repr

/-- Rust struct `UnspentTxOutputs` (element shape of `listunspent`). -/
structure UnspentTxOutputs where
  txid : String
  vout : Nat
  address : String
  label : String
  scriptPubKey : String
  amount : Rat
  confirmations : Nat
  spendable : Bool
  solvable : Bool
  desc : String
  parent_descs : List String
  safe : Bool
deriving DecidableEq, Repr

/-- Rust struct `Input`: the minimal reference to the selected UTXO. -/
structure Input where
  txid : String
  vout : Nat
deriving DecidableEq, Repr

/-- serde decode of a JSON value into a `String`. -/
def decodeString : Json → Option String
  | .str s => some s
  | _ => none

/-- serde decode of a JSON value into a `bool`. -/
def decodeBool : Json → Option Bool
  | .bool b => some b
  | _ => none

/-- serde decode of a JSON number into `f32` (carried exactly). -/
def decodeF32 : Json → Option Rat
  | .num q => some q
  | _ => none

/-- serde decode of a JSON number into `u32`: an integer in range. -/
def decodeU32 : Json → Option Nat
  | .num q => if q.den = 1 ∧ 0 ≤ q.num ∧ q.num < 4294967296 then some q.num.toNat else none
  | _ => none

/-- serde decode of a JSON number into `i32`: an integer in range. -/
def decodeI32 : Json → Option Int
  | .num q => if q.den = 1 ∧ -2147483648 ≤ q.num ∧ q.num < 2147483648 then some q.num else none
  | _ => none

/-- serde decode of a JSON value into `Vec<String>`. -/
def decodeStringList : Json → Option (List String)
  | .arr elems => elems.mapM decodeString
  | _ => none

/-- serde decode into the `Psbt` struct. -/
def decodePsbt : Json → Option Psbt
  | .obj fields => do
      let psbt ← jsonLookup "psbt" fields >>= decodeString
      let fee ← jsonLookup "fee" fields >>= decodeF32
      let changepos ← jsonLookup "changepos" fields >>= decodeI32
      pure ⟨psbt, fee, changepos⟩
  | _ => none

/-- serde decode into the `WalletProcessPsbt` struct. -/
def decodeWalletProcessPsbt : Json → Option WalletProcessPsbt
  | .obj fields => do
      let psbt ← jsonLookup "psbt" fields >>= decodeString
      let complete ← jsonLookup "complete" fields >>= decodeBool
      pure ⟨psbt, complete⟩
  | _ => none

/-- serde decode into the `FinalizedPsbtResponse` struct. -/
def decodeFinalizedPsbtResponse : Json → Option FinalizedPsbtResponse
  | .obj fields => do
      let hex ← jsonLookup "hex" fields >>= decodeString
      let complete ← jsonLookup "complete" fields >>= decodeBool
      pure ⟨hex, complete⟩
  | _ => none

/-- serde decode into the `UnspentTxOutputs` struct. -/
def decodeUnspent : Json → Option UnspentTxOutputs
  | .obj fields => do
      let txid ← jsonLookup "txid" fields >>= decodeString
      let vout ← jsonLookup "vout" fields >>= decodeU32
      let address ← jsonLookup "address" fields >>= decodeString
      let label ← jsonLookup "label" fields >>= decodeString
      let scriptPubKey ← jsonLookup "scriptPubKey" fields >>= decodeString
      let amount ← jsonLookup "amount" fields >>= decodeF32
      let confirmations ← jsonLookup "confirmations" fields >>= decodeU32
      let spendable ← jsonLookup "spendable" fields >>= decodeBool
      let solvable ← jsonLookup "solvable" fields >>= decodeBool
      let desc ← jsonLookup "desc" fields >>= decodeString
      let parent_descs ← jsonLookup "parent_descs" fields >>= decodeStringList
      let safe ← jsonLookup "safe" fields >>= decodeBool
      pure ⟨txid, vout, address, label, scriptPubKey, amount, confirmations,
            spendable, solvable, desc, parent_descs, safe⟩
  | _ => none

/-- serde decode into `Vec<UnspentTxOutputs>`. -/
def decodeUnspentList : Json → Option (List UnspentTxOutputs)
  | .arr elems => elems.mapM decodeUnspent
  | _ => none

/-- serde decode into `Option<Vec<UnspentTxOutputs>>`: JSON `null` decodes
to the absent value `none`, any other value must decode as the vector. -/
def decodeOptUnspentList : Json → Option (Option (List UnspentTxOutputs))
  | .null => some none
  | j => (decodeUnspentList j).map some

/-- Rust `deserialize_response::<T>`: extract the `result` field and run the
serde decode for the expected type `T`; decode failure becomes `none` via
`.ok()`, never a panic (the Lean function is total by construction). -/
def deserialize_response {T : Type} (decode : Json → Option T) (response : Json) : Option T :=
  decode (getResult response)

/-- An issued RPC request: the resolved URL, the Basic-auth credentials it
carries, and the JSON-RPC method and positional parameters of its body. -/
structure RpcRequest where
  url : String
  user : String
  password : String
  method : String
  params : Json

/-- The environment (`std::env::var`), a partial map from variable names. -/
def EnvMap : Type := String → Option String

/-- The remote node: maps each issued request to either a transport-level
failure (Rust `reqwest` error, carried as a message) or a parsed JSON
response body. -/
def Node : Type := RpcRequest → Except String Json

/-- Rust `send_rpc_request(method, params, wallet_request)`.  The outer
`Except String` is a panic (`expect` on a missing environment variable)
raised before any request is built or sent; on success it returns the
single request that was sent together with the node's reply. -/
def send_rpc_request (env : EnvMap) (node : Node) (method : String) (params : Json)
    (wallet_request : Bool) : Except String (RpcRequest × Except String Json) :=
  match (match wallet_request with
         | true => (env "RPC_HOST").map (fun rpc_link => rpc_link ++ "/wallet/codeplanet")
         | false => env "RPC_HOST") with
  | none => Except.error "RPC_HOST not found in environment"
  | some rpc_url =>
    match env "RPC_USER" with
    | none => Except.error "RPC_USER not found in environment"
    | some rpc_user =>
      match env "RPC_PASSWORD" with
      | none => Except.error "RPC_PASSWORD not found in environment"
      | some rpc_password =>
        let req : RpcRequest := ⟨rpc_url, rpc_user, rpc_password, method, params⟩
        Except.ok (req, node req)

/-- The requests actually sent by one `send_rpc_request` call: none when the
call panicked on missing configuration, exactly one otherwise. -/
def sentRequests (r : Except String (RpcRequest × Except String Json)) : List RpcRequest :=
  match r with
  | .error _ => []
  | .ok (req, _) => [req]

/-- Outcome of a stage function: a returned value (Rust `Ok`), a propagated
transport error (Rust `Err`), or a panic. -/
inductive Outcome (T : Type) where
  | ok (value : T)
  | err (e : String)
  | panicked (msg : String)
deriving DecidableEq, Repr

/-- The message of the Rust panic from `Option::unwrap()` on `None`. -/
def unwrapMsg : String := "called Option::unwrap() on a None value"

/-- The positional parameters `json!([utxos, output])` built by `create_psbt`. -/
def createParams (input : Input) (output : List Json) : Json :=
  Json.arr [Json.arr [Json.obj [("txid", Json.str input.txid),
                                ("vout", Json.num input.vout)]],
            Json.arr output]

/-- Rust `create_psbt(input, output)`: wallet-scoped `walletcreatefundedpsbt`
call; the decoded `Psbt` is unwrapped, so a decode failure panics. -/
def create_psbt (env : EnvMap) (node : Node) (input : Input) (output : List Json) :
    List RpcRequest × Outcome Psbt :=
  match send_rpc_request env node "walletcreatefundedpsbt" (createParams input output) true with
  | .error msg => ([], .panicked msg)
  | .ok (req, .error e) => ([req], .err e)
  | .ok (req, .ok response) =>
    match deserialize_response decodePsbt response with
    | some response_json => ([req], .ok response_json)
    | none => ([req], .panicked unwrapMsg)

/-- Rust `join_psbt()`: reads both PSBTs from the environment, then issues a
non-wallet-scoped `joinpsbts` call with `json!([[a, b]])`. -/
def join_psbt (env : EnvMap) (node : Node) : List RpcRequest × Outcome String :=
  match env "IFEANYI_WALLET_PSBT" with
  | none => ([], .panicked "User PSBT not found in environment")
  | some ifeanyi_wallet_psbt =>
    match env "CODEPLANET_WALLET_PSBT" with
    | none => ([], .panicked "User PSBT not found in environment")
    | some codeplanet_wallet_psbt =>
      let psbts := Json.arr [Json.str ifeanyi_wallet_psbt, Json.str codeplanet_wallet_psbt]
      match send_rpc_request env node "joinpsbts" (Json.arr [psbts]) false with
      | .error msg => ([], .panicked msg)
      | .ok (req, .error e) => ([req], .err e)
      | .ok (req, .ok response) =>
        match deserialize_response decodeString response with
        | some result => ([req], .ok result)
        | none => ([req], .panicked unwrapMsg)

/-- Rust `wallet_process_psbt(psbt)`: wallet-scoped `walletprocesspsbt` call
with `json!([psbt])`. -/
def wallet_process_psbt (env : EnvMap) (node : Node) (psbt : String) :
    List RpcRequest × Outcome WalletProcessPsbt :=
  match send_rpc_request env node "walletprocesspsbt" (Json.arr [Json.str psbt]) true with
  | .error msg => ([], .panicked msg)
  | .ok (req, .error e) => ([req], .err e)
  | .ok (req, .ok response) =>
    match deserialize_response decodeWalletProcessPsbt response with
    | some result => ([req], .ok result)
    | none => ([req], .panicked unwrapMsg)

/-- Rust `combine_psbt(psbt)`: takes one PSBT string and issues a
non-wallet-scoped `combinepsbt` call with `json!([[psbt]])`. -/
def combine_psbt (env : EnvMap) (node : Node) (psbt : String) :
    List RpcRequest × Outcome String :=
  match send_rpc_request env node "combinepsbt" (Json.arr [Json.arr [Json.str psbt]]) false with
  | .error msg => ([], .panicked msg)
  | .ok (req, .error e) => ([req], .err e)
  | .ok (req, .ok response) =>
    match deserialize_response decodeString response with
    | some result => ([req], .ok result)
    | none => ([req], .panicked unwrapMsg)

/-- Rust `finalize_psbt(psbt)`: non-wallet-scoped `finalizepsbt` call. -/
def finalize_psbt (env : EnvMap) (node : Node) (psbt : String) :
    List RpcRequest × Outcome FinalizedPsbtResponse :=
  match send_rpc_request env node "finalizepsbt" (Json.arr [Json.str psbt]) false with
  | .error msg => ([], .panicked msg)
  | .ok (req, .error e) => ([req], .err e)
  | .ok (req, .ok response) =>
    match deserialize_response decodeFinalizedPsbtResponse response with
    | some result => ([req], .ok result)
    | none => ([req], .panicked unwrapMsg)

/-- Rust `broadcast_transaction(hex)`: non-wallet-scoped `sendrawtransaction`
call returning the transaction id string. -/
def broadcast_transaction (env : EnvMap) (node : Node) (hex : String) :
    List RpcRequest × Outcome String :=
  match send_rpc_request env node "sendrawtransaction" (Json.arr [Json.str hex]) false with
  | .error msg => ([], .panicked msg)
  | .ok (req, .error e) => ([req], .err e)
  | .ok (req, .ok response) =>
    match deserialize_response decodeString response with
    | some result => ([req], .ok result)
    | none => ([req], .panicked unwrapMsg)

/-- Console output of `main`: the `println!` lines it can produce. -/
inductive PrintEv where
  | valHere (value : Psbt)
  | errHereCreate (e : String)
  | errHereMain (e : String)
deriving DecidableEq, Repr

/-- Result of a `main` run: normal termination with its console output, or a
panic. -/
inductive MainResult where
  | finished (prints : List PrintEv)
  | panicked (msg : String)
deriving DecidableEq, Repr

/-- The hard-coded destination output of `main`: one address paid 0.0001. -/
def mainOutput : List Json :=
  [Json.obj [("bcrt1qpfk7t93jfl240a4qv78kplqvqntxafg03rx68p", Json.num (mkRat 1 10000))]]

/-- The `for (index, utxo) in utxos.iter().enumerate()` loop of `main`:
only the entry at index 1 is selected and funds a `create_psbt` call. -/
def mainLoop (env : EnvMap) (node : Node) :
    Nat → List UnspentTxOutputs → List RpcRequest × Except String (List PrintEv)
  | _, [] => ([], .ok [])
  | index, utxo :: rest =>
    if index = 1 then
      match create_psbt env node ⟨utxo.txid, utxo.vout⟩ mainOutput with
      | (tr, .ok val) =>
        let (tr2, res2) := mainLoop env node (index + 1) rest
        (tr ++ tr2, res2.map (fun prints => PrintEv.valHere val :: prints))
      | (tr, .err e) =>
        let (tr2, res2) := mainLoop env node (index + 1) rest
        (tr ++ tr2, res2.map (fun prints => PrintEv.errHereCreate e :: prints))
      | (tr, .panicked msg) => (tr, .error msg)
    else
      mainLoop env node (index + 1) rest

/-- Rust `main()` (named `main_run` because Lean reserves `main`): lists unspent outputs (wallet-scoped), unwraps the decoded
`Option<Vec<UnspentTxOutputs>>` twice, and runs the selection loop. -/
def main_run (env : EnvMap) (node : Node) : List RpcRequest × MainResult :=
  match send_rpc_request env node "listunspent" (Json.arr []) true with
  | .error msg => ([], .panicked msg)
  | .ok (req, .error e) => ([req], .finished [PrintEv.errHereMain e])
  | .ok (req, .ok response) =>
    match deserialize_response decodeOptUnspentList response with
    | none => ([req], .panicked unwrapMsg)
    | some none => ([req], .panicked unwrapMsg)
    | some (some utxos) =>
      match mainLoop env node 0 utxos with
      | (tr, .ok prints) => (req :: tr, .finished prints)
      | (tr, .error msg) => (req :: tr, .panicked msg)

/-- A fully populated environment used for concrete runs. -/
def envC : EnvMap := fun name =>
  if name = "RPC_HOST" then some "http://node:18443"
  else if name = "RPC_USER" then some "alice"
  else if name = "RPC_PASSWORD" then some "hunter2"
  else if name = "IFEANYI_WALLET_PSBT" then some "psbtIF"
  else if name = "CODEPLANET_WALLET_PSBT" then some "psbtCP"
  else none

/-- JSON fixture for one well-formed `listunspent` entry. -/
def utxoJson (txid : String) (vout : Nat) : Json :=
  Json.obj [("txid", Json.str txid),
            ("vout", Json.num vout),
            ("address", Json.str "bcrt1qaddr"),
            ("label", Json.str ""),
            ("scriptPubKey", Json.str "0014aa"),
            ("amount", Json.num 1),
            ("confirmations", Json.num 6),
            ("spendable", Json.bool true),
            ("solvable", Json.bool true),
            ("desc", Json.str "wpkh([d34db33f]xpub)"),
            ("parent_descs", Json.arr [Json.str "wpkh(xpub)"]),
            ("safe", Json.bool true)]

/-- The decoded form of `utxoJson txid vout`. -/
def utxoVal (txid : String) (vout : Nat) : UnspentTxOutputs :=
  ⟨txid, vout, "bcrt1qaddr", "", "0014aa", 1, 6, true, true,
   "wpkh([d34db33f]xpub)", ["wpkh(xpub)"], true⟩

/-- A node that answers every stage with a well-formed fixture: two unspent
outputs, a funded PSBT, joined/processed/combined/finalized values, and a
canned transaction id for `sendrawtransaction`. -/
def nodeFix : Node := fun req =>
  if req.method = "listunspent" then
    Except.ok (Json.obj [("result", Json.arr [utxoJson "aaa0" 0, utxoJson "aaa1" 1])])
  else if req.method = "walletcreatefundedpsbt" then
    Except.ok (Json.obj [("result", Json.obj [("psbt", Json.str "createdPSBT"),
                                              ("fee", Json.num (mkRat 282 100000)),
                                              ("changepos", Json.num 1)])])
  else if req.method = "joinpsbts" then
    Except.ok (Json.obj [("result", Json.str "joinedPSBT")])
  else if req.method = "walletprocesspsbt" then
    Except.ok (Json.obj [("result", Json.obj [("psbt", Json.str "signedPSBT"),
                                              ("complete", Json.bool true)])])
  else if req.method = "combinepsbt" then
    Except.ok (Json.obj [("result", Json.str "combinedPSBT")])
  else if req.method = "finalizepsbt" then
    Except.ok (Json.obj [("result", Json.obj [("hex", Json.str "02000000beef"),
                                              ("complete", Json.bool true)])])
  else if req.method = "sendrawtransaction" then
    Except.ok (Json.obj [("result", Json.str "txid123")])
  else
    Except.ok Json.null

/-- The funded-PSBT value decoded from `nodeFix`'s create fixture. -/
def psbtFix : Psbt := ⟨"createdPSBT", mkRat 282 100000, 1⟩

/-- A node whose every response is transport-successful but carries a JSON
`null` in the `result` field (a malformed reply for every stage). -/
def nodeNullAll : Node := fun _ => Except.ok (Json.obj [("result", Json.null)])

/-- A node whose every response is transport-successful but malformed for
the stage that receives it, each with a different wrong shape: a number
where the create stage expects an object, an array where join expects a
string, an object missing its `complete` field for the sign stage, a
boolean where combine expects a string, an envelope with no `result` field
at all for finalize, and a `null` result for broadcast. -/
def nodeMalformed : Node := fun req =>
  if req.method = "walletcreatefundedpsbt" then
    Except.ok (Json.obj [("result", Json.num 7)])
  else if req.method = "joinpsbts" then
    Except.ok (Json.obj [("result", Json.arr [Json.str "x"])])
  else if req.method = "walletprocesspsbt" then
    Except.ok (Json.obj [("result", Json.obj [("psbt", Json.str "p")])])
  else if req.method = "combinepsbt" then
    Except.ok (Json.obj [("result", Json.bool true)])
  else if req.method = "finalizepsbt" then
    Except.ok (Json.obj [])
  else
    Except.ok (Json.obj [("result", Json.null)])

/-- An environment with no variables set at all. -/
def envNone : EnvMap := fun _ => none

/-- The request issued by `join_psbt` for hand-off PSBT values `a` and `b`:
a non-wallet-scoped `joinpsbts` with both PSBTs in one list parameter. -/
def joinReq (host user pass a b : String) : RpcRequest :=
  ⟨host, user, pass, "joinpsbts", Json.arr [Json.arr [Json.str a, Json.str b]]⟩

/-- Modelled from the spec: the section-4.3 combine contract,
"combine(psbtList): non-wallet-scoped combine procedure taking the list of
independently signed PSBTs", sends all supplied PSBTs as the single list
parameter of the request. -/
def combineParamsSpec (psbts : List String) : Json :=
  Json.arr [Json.arr (psbts.map Json.str)]

/-- Number of entries in the PSBT-list parameter of a combine request. -/
def innerParamCount : Json → Nat
  | Json.arr [Json.arr elems] => elems.length
  | _ => 0

/-- The request issued by `combine_psbt` for one PSBT string: a
non-wallet-scoped `combinepsbt` whose list parameter holds only that one
PSBT. -/
def combineReq (host user pass psbt : String) : RpcRequest :=
  ⟨host, user, pass, "combinepsbt", Json.arr [Json.arr [Json.str psbt]]⟩

/-- The wallet-scoped `listunspent` request `main` issues first. -/
def listunspentReq (host user pass : String) : RpcRequest :=
  ⟨host ++ "/wallet/codeplanet", user, pass, "listunspent", Json.arr []⟩

/-- The wallet-scoped `walletcreatefundedpsbt` request `main` issues for the
selected input, with its hardcoded destination output. -/
def createReq (host user pass : String) (input : Input) : RpcRequest :=
  ⟨host ++ "/wallet/codeplanet", user, pass, "walletcreatefundedpsbt",
   createParams input mainOutput⟩

/-- With all three credentials present, a wallet-scoped call resolves the
URL to the host extended with the hardcoded wallet path and sends exactly
that request. -/
theorem send_rpc_request_wallet (env : EnvMap) (node : Node) (method : String) (params : Json)
    (host user pass : String)
    (hh : env "RPC_HOST" = some host) (hu : env "RPC_USER" = some user)
    (hp : env "RPC_PASSWORD" = some pass) :
    send_rpc_request env node method params true =
      Except.ok (⟨host ++ "/wallet/codeplanet", user, pass, method, params⟩,
                 node ⟨host ++ "/wallet/codeplanet", user, pass, method, params⟩) := by
  simp [send_rpc_request, hh, hu, hp]

/-- With all three credentials present, a non-wallet-scoped call goes to the
base host unchanged. -/
theorem send_rpc_request_global (env : EnvMap) (node : Node) (method : String) (params : Json)
    (host user pass : String)
    (hh : env "RPC_HOST" = some host) (hu : env "RPC_USER" = some user)
    (hp : env "RPC_PASSWORD" = some pass) :
    send_rpc_request env node method params false =
      Except.ok (⟨host, user, pass, method, params⟩, node ⟨host, user, pass, method, params⟩) := by
  simp [send_rpc_request, hh, hu, hp]

/-- A request returned by `send_rpc_request` carries the method it was
called with, and the reply is the node's answer to that request. -/
theorem send_rpc_request_method (env : EnvMap) (node : Node) (method : String) (params : Json)
    (w : Bool) (req : RpcRequest) (x : Except String Json)
    (h : send_rpc_request env node method params w = Except.ok (req, x)) :
    req.method = method ∧ x = node req := by
  cases w <;>
    cases hh : env "RPC_HOST" <;>
    cases hu : env "RPC_USER" <;>
    cases hp : env "RPC_PASSWORD" <;>
    simp [send_rpc_request, hh, hu, hp] at h <;>
    (obtain ⟨h1, h2⟩ := h; subst h1; exact ⟨rfl, h2.symm⟩)

/-- The requests issued by `create_psbt` are exactly those of its single
transport call. -/
theorem create_psbt_fst (env : EnvMap) (node : Node) (input : Input) (output : List Json) :
    (create_psbt env node input output).1 =
      sentRequests (send_rpc_request env node "walletcreatefundedpsbt"
        (createParams input output) true) := by
  unfold create_psbt sentRequests
  cases send_rpc_request env node "walletcreatefundedpsbt" (createParams input output) true with
  | error msg => rfl
  | ok pair =>
    obtain ⟨req, x⟩ := pair
    cases x with
    | error e => rfl
    | ok response =>
      dsimp only
      cases deserialize_response decodePsbt response <;> rfl

/-- Every request issued by `create_psbt` is a `walletcreatefundedpsbt`. -/
theorem create_psbt_trace_method (env : EnvMap) (node : Node) (input : Input)
    (output : List Json) (r : RpcRequest) (hr : r ∈ (create_psbt env node input output).1) :
    r.method = "walletcreatefundedpsbt" := by
  rw [create_psbt_fst] at hr
  cases hs : send_rpc_request env node "walletcreatefundedpsbt" (createParams input output) true with
  | error msg => rw [hs] at hr; simp [sentRequests] at hr
  | ok pair =>
    obtain ⟨req, x⟩ := pair
    rw [hs] at hr
    simp [sentRequests] at hr
    rw [hr]
    exact (send_rpc_request_method env node _ _ _ _ _ hs).1

/-- Every request issued by the selection loop of `main` is a
`walletcreatefundedpsbt`. -/
theorem mainLoop_trace_method (env : EnvMap) (node : Node) :
    ∀ (l : List UnspentTxOutputs) (i : Nat) (r : RpcRequest),
      r ∈ (mainLoop env node i l).1 → r.method = "walletcreatefundedpsbt" := by
  intro l
  induction l with
  | nil => intro i r hr; simp [mainLoop] at hr
  | cons u rest ih =>
    intro i r hr
    by_cases hi : i = 1
    · rw [mainLoop, if_pos hi] at hr
      cases hc : create_psbt env node ⟨u.txid, u.vout⟩ mainOutput with
      | mk tr out =>
        rw [hc] at hr
        cases out with
        | ok val =>
          dsimp only at hr
          rw [List.mem_append] at hr
          rcases hr with hr | hr
          · exact create_psbt_trace_method env node _ _ r (by rw [hc]; exact hr)
          · exact ih (i + 1) r hr
        | err e =>
          dsimp only at hr
          rw [List.mem_append] at hr
          rcases hr with hr | hr
          · exact create_psbt_trace_method env node _ _ r (by rw [hc]; exact hr)
          · exact ih (i + 1) r hr
        | panicked msg =>
          dsimp only at hr
          exact create_psbt_trace_method env node _ _ r (by rw [hc]; exact hr)
    · rw [mainLoop, if_neg hi] at hr
      exact ih (i + 1) r hr

/-- Every request issued by `main` is a `listunspent` or a
`walletcreatefundedpsbt`. -/
theorem main_run_trace_methods (env : EnvMap) (node : Node) (r : RpcRequest)
    (hr : r ∈ (main_run env node).1) :
    r.method = "listunspent" ∨ r.method = "walletcreatefundedpsbt" := by
  unfold main_run at hr
  cases hs : send_rpc_request env node "listunspent" (Json.arr []) true with
  | error msg => rw [hs] at hr; simp at hr
  | ok pair =>
    obtain ⟨req, x⟩ := pair
    have hm := (send_rpc_request_method env node _ _ _ _ _ hs).1
    rw [hs] at hr
    cases x with
    | error e => dsimp only at hr; simp at hr; rw [hr]; exact Or.inl hm
    | ok response =>
      dsimp only at hr
      cases hd : deserialize_response decodeOptUnspentList response with
      | none => rw [hd] at hr; simp at hr; rw [hr]; exact Or.inl hm
      | some o =>
        cases o with
        | none => rw [hd] at hr; simp at hr; rw [hr]; exact Or.inl hm
        | some utxos =>
          rw [hd] at hr
          dsimp only at hr
          cases hl : mainLoop env node 0 utxos with
          | mk tr res =>
            rw [hl] at hr
            cases res with
            | ok prints =>
              dsimp only at hr
              rw [List.mem_cons] at hr
              rcases hr with hr | hr
              · rw [hr]; exact Or.inl hm
              · exact Or.inr (mainLoop_trace_method env node utxos 0 r (by rw [hl]; exact hr))
            | error msg =>
              dsimp only at hr
              rw [List.mem_cons] at hr
              rcases hr with hr | hr
              · rw [hr]; exact Or.inl hm
              · exact Or.inr (mainLoop_trace_method env node utxos 0 r (by rw [hl]; exact hr))

/-- Past index 1 the selection loop of `main` issues no request and prints
nothing. -/
theorem mainLoop_stops (env : EnvMap) (node : Node) :
    ∀ (l : List UnspentTxOutputs) (i : Nat),
      mainLoop env node (i + 2) l = ([], Except.ok []) := by
  intro l
  induction l with
  | nil => intro i; rfl
  | cons u rest ih =>
    intro i
    have hi : ¬ (i + 2 = 1) := by omega
    rw [mainLoop, if_neg hi]
    exact ih (i + 1)

/-- C1.  The broadcast procedure is never invoked when the preceding
finalize reported `complete=false`: in every execution of the program, no
`sendrawtransaction` request is issued at all (for any environment and any
node behaviour, `main`'s request trace contains no broadcast request), so
in particular none is issued after an incomplete finalize result. -/
theorem main_never_broadcasts (env : EnvMap) (node : Node) :
    (main_run env node).1.filter (fun r => r.method == "sendrawtransaction") = [] := by
  rw [List.filter_eq_nil_iff]
  intro r hr
  rcases main_run_trace_methods env node r hr with h | h <;> simp [h]

/-- C10.  When the `listunspent` response carries a JSON `null` result, the
decoder's outer call succeeds with `some none` (the expected type
`Option<Vec<UnspentTxOutputs>>` accepts `null` as the absent value), and
`main` then panics on the subsequent unwrap of that absent value instead of
reporting the absence as an error: the run ends in a panic, not in the
program's error-printing path. -/
theorem listunspent_null_result_panics :
    deserialize_response decodeOptUnspentList (Json.obj [("result", Json.null)]) =
      some none
    ∧ main_run envC nodeNullAll =
        ([⟨"http://node:18443/wallet/codeplanet", "alice", "hunter2", "listunspent",
           Json.arr []⟩],
         MainResult.panicked unwrapMsg) :=
  ⟨rfl, rfl⟩

/-- C7.  The `wallet_request` flag alone selects the URL: with the same
configured base address, a wallet-scoped call is sent to the base address
extended with the wallet path segment, and a non-wallet-scoped call is sent
to the base address unchanged. -/
theorem wallet_scoped_url_selection (env : EnvMap) (node : Node) (method : String)
    (params : Json) (host user pass : String)
    (hh : env "RPC_HOST" = some host) (hu : env "RPC_USER" = some user)
    (hp : env "RPC_PASSWORD" = some pass) :
    send_rpc_request env node method params true =
      Except.ok (⟨host ++ "/wallet/codeplanet", user, pass, method, params⟩,
                 node ⟨host ++ "/wallet/codeplanet", user, pass, method, params⟩)
    ∧ send_rpc_request env node method params false =
        Except.ok (⟨host, user, pass, method, params⟩,
                   node ⟨host, user, pass, method, params⟩) :=
  ⟨send_rpc_request_wallet env node method params host user pass hh hu hp,
   send_rpc_request_global env node method params host user pass hh hu hp⟩

/-- Witness for C7 at a concrete environment, method and parameter list. -/
theorem wallet_scoped_url_selection_witness :
    send_rpc_request envC nodeFix "getblockcount" (Json.arr []) true =
      Except.ok (⟨"http://node:18443" ++ "/wallet/codeplanet", "alice", "hunter2",
                  "getblockcount", Json.arr []⟩,
                 nodeFix ⟨"http://node:18443" ++ "/wallet/codeplanet", "alice", "hunter2",
                          "getblockcount", Json.arr []⟩)
    ∧ send_rpc_request envC nodeFix "getblockcount" (Json.arr []) false =
        Except.ok (⟨"http://node:18443", "alice", "hunter2", "getblockcount", Json.arr []⟩,
                   nodeFix ⟨"http://node:18443", "alice", "hunter2", "getblockcount",
                            Json.arr []⟩) :=
  wallet_scoped_url_selection envC nodeFix "getblockcount" (Json.arr [])
    "http://node:18443" "alice" "hunter2" rfl rfl rfl

/-- C9.  Every wallet-scoped call, whatever its method and parameters (that
is, whichever signing party it is made for), is routed to the one hardcoded
wallet path `RPC_HOST/wallet/codeplanet`: two arbitrary wallet-scoped calls
resolve to the same URL, the base address extended with
`/wallet/codeplanet`. -/
theorem wallet_path_hardcoded_codeplanet (env : EnvMap) (node : Node)
    (m1 m2 : String) (p1 p2 : Json) (host user pass : String)
    (hh : env "RPC_HOST" = some host) (hu : env "RPC_USER" = some user)
    (hp : env "RPC_PASSWORD" = some pass) :
    send_rpc_request env node m1 p1 true =
      Except.ok (⟨host ++ "/wallet/codeplanet", user, pass, m1, p1⟩,
                 node ⟨host ++ "/wallet/codeplanet", user, pass, m1, p1⟩)
    ∧ send_rpc_request env node m2 p2 true =
        Except.ok (⟨host ++ "/wallet/codeplanet", user, pass, m2, p2⟩,
                   node ⟨host ++ "/wallet/codeplanet", user, pass, m2, p2⟩)
    ∧ (RpcRequest.mk (host ++ "/wallet/codeplanet") user pass m1 p1).url =
        (RpcRequest.mk (host ++ "/wallet/codeplanet") user pass m2 p2).url :=
  ⟨send_rpc_request_wallet env node m1 p1 host user pass hh hu hp,
   send_rpc_request_wallet env node m2 p2 host user pass hh hu hp,
   rfl⟩

/-- Witness for C9: signing calls for two different parties still target the
single `codeplanet` wallet context. -/
theorem wallet_path_hardcoded_codeplanet_witness :
    send_rpc_request envC nodeFix "walletprocesspsbt" (Json.arr [Json.str "psbtIF"]) true =
      Except.ok (⟨"http://node:18443" ++ "/wallet/codeplanet", "alice", "hunter2",
                  "walletprocesspsbt", Json.arr [Json.str "psbtIF"]⟩,
                 nodeFix ⟨"http://node:18443" ++ "/wallet/codeplanet", "alice", "hunter2",
                          "walletprocesspsbt", Json.arr [Json.str "psbtIF"]⟩)
    ∧ send_rpc_request envC nodeFix "walletprocesspsbt" (Json.arr [Json.str "psbtCP"]) true =
        Except.ok (⟨"http://node:18443" ++ "/wallet/codeplanet", "alice", "hunter2",
                    "walletprocesspsbt", Json.arr [Json.str "psbtCP"]⟩,
                   nodeFix ⟨"http://node:18443" ++ "/wallet/codeplanet", "alice", "hunter2",
                            "walletprocesspsbt", Json.arr [Json.str "psbtCP"]⟩)
    ∧ (RpcRequest.mk ("http://node:18443" ++ "/wallet/codeplanet") "alice" "hunter2"
        "walletprocesspsbt" (Json.arr [Json.str "psbtIF"])).url =
        (RpcRequest.mk ("http://node:18443" ++ "/wallet/codeplanet") "alice" "hunter2"
          "walletprocesspsbt" (Json.arr [Json.str "psbtCP"])).url :=
  wallet_path_hardcoded_codeplanet envC nodeFix "walletprocesspsbt" "walletprocesspsbt"
    (Json.arr [Json.str "psbtIF"]) (Json.arr [Json.str "psbtCP"])
    "http://node:18443" "alice" "hunter2" rfl rfl rfl

/-- C8.  If any of the three required configuration values (node address,
authentication identity, authentication secret) is absent from the
environment, `send_rpc_request` fails fatally (the `expect` panic carried as
`Except.error`) before any network request is sent: no request is produced
and the node is never consulted. -/
theorem missing_config_fatal_before_send (env : EnvMap) (node : Node) (method : String)
    (params : Json) (w : Bool)
    (h : env "RPC_HOST" = none ∨ env "RPC_USER" = none ∨ env "RPC_PASSWORD" = none) :
    (∃ msg, send_rpc_request env node method params w = Except.error msg)
    ∧ sentRequests (send_rpc_request env node method params w) = [] := by
  cases hh : env "RPC_HOST" with
  | none =>
    cases w <;> exact ⟨⟨"RPC_HOST not found in environment", by simp [send_rpc_request, hh]⟩,
      by simp [send_rpc_request, sentRequests, hh]⟩
  | some host =>
    cases hu : env "RPC_USER" with
    | none =>
      cases w <;> exact ⟨⟨"RPC_USER not found in environment", by simp [send_rpc_request, hh, hu]⟩,
        by simp [send_rpc_request, sentRequests, hh, hu]⟩
    | some user =>
      cases hp : env "RPC_PASSWORD" with
      | none =>
        cases w <;> exact ⟨⟨"RPC_PASSWORD not found in environment",
            by simp [send_rpc_request, hh, hu, hp]⟩,
          by simp [send_rpc_request, sentRequests, hh, hu, hp]⟩
      | some pass =>
        rcases h with h | h | h <;> simp_all

/-- Witness for C8 at the empty environment: the call aborts with a fatal
configuration error and sends nothing. -/
theorem missing_config_fatal_before_send_witness :
    (∃ msg, send_rpc_request envNone nodeFix "listunspent" (Json.arr []) true =
      Except.error msg)
    ∧ sentRequests (send_rpc_request envNone nodeFix "listunspent" (Json.arr []) true) = [] :=
  missing_config_fatal_before_send envNone nodeFix "listunspent" (Json.arr []) true
    (Or.inl rfl)

/-- C4.  `join_psbt` passes both PSBTs to merge — the two explicit hand-off
values read from configuration (`IFEANYI_WALLET_PSBT` and
`CODEPLANET_WALLET_PSBT`) — to the non-wallet-scoped `joinpsbts` procedure
(the request URL is the bare base address), and returns the single merged
PSBT string carried by the response. -/
theorem join_psbt_passes_both_handoff_psbts (env : EnvMap) (node : Node)
    (host user pass a b s : String)
    (hh : env "RPC_HOST" = some host) (hu : env "RPC_USER" = some user)
    (hp : env "RPC_PASSWORD" = some pass)
    (hia : env "IFEANYI_WALLET_PSBT" = some a)
    (hcb : env "CODEPLANET_WALLET_PSBT" = some b)
    (hnode : node (joinReq host user pass a b) = Except.ok (Json.obj [("result", Json.str s)])) :
    join_psbt env node = ([joinReq host user pass a b], Outcome.ok s) := by
  simp only [joinReq] at hnode
  unfold join_psbt
  rw [hia]
  dsimp only
  rw [hcb]
  dsimp only
  rw [send_rpc_request_global env node "joinpsbts"
    (Json.arr [Json.arr [Json.str a, Json.str b]]) host user pass hh hu hp]
  rw [hnode]
  rfl

/-- Witness for C4: with both hand-off PSBTs configured and a node fixture
answering `joinpsbts`, the join stage issues exactly that request and
returns the merged string. -/
theorem join_psbt_passes_both_handoff_psbts_witness :
    join_psbt envC nodeFix =
      ([joinReq "http://node:18443" "alice" "hunter2" "psbtIF" "psbtCP"],
       Outcome.ok "joinedPSBT") :=
  join_psbt_passes_both_handoff_psbts envC nodeFix "http://node:18443" "alice" "hunter2"
    "psbtIF" "psbtCP" "joinedPSBT" rfl rfl rfl rfl rfl rfl

/-- C5 counterexample.  For the expected type `Option<Vec<UnspentTxOutputs>>`
(used by `main` for `listunspent`), a response with an absent `result` field
does not make the decoder return its empty case: the JSON `null` obtained
for the missing field matches the optional type itself, so the decoder
returns `some none` — a present (non-empty) outer value. -/
theorem decoder_optional_absent_counterexample :
    deserialize_response decodeOptUnspentList (Json.obj []) = some none
    ∧ (deserialize_response decodeOptUnspentList (Json.obj [])).isSome = true :=
  ⟨rfl, rfl⟩

/-- C5 as amended.  For every non-null-admitting expected result type used
by the program (`Psbt`, `WalletProcessPsbt`, `FinalizedPsbtResponse`,
`String`, `Vec<UnspentTxOutputs>`), the decoder returns `none` when the
`result` field is absent or `null`, and it returns `none` on shape
mismatches; only for an optional expected type does an absent result decode
to a present `some none`.  The decoder is a total function: it never
raises. -/
theorem decoder_absent_or_mismatch_returns_none :
    (∀ response : Json, getResult response = Json.null →
      deserialize_response decodePsbt response = none
      ∧ deserialize_response decodeWalletProcessPsbt response = none
      ∧ deserialize_response decodeFinalizedPsbtResponse response = none
      ∧ deserialize_response decodeString response = none
      ∧ deserialize_response decodeUnspentList response = none
      ∧ deserialize_response decodeOptUnspentList response = some none)
    ∧ (∀ q : Rat, deserialize_response decodePsbt (Json.obj [("result", Json.num q)]) = none)
    ∧ (∀ s : String,
        deserialize_response decodeString
          (Json.obj [("result", Json.obj [("psbt", Json.str s)])]) = none)
    ∧ (∀ b : Bool,
        deserialize_response decodeUnspentList (Json.obj [("result", Json.bool b)]) = none) := by
  refine ⟨?_, fun q => rfl, fun s => rfl, fun b => rfl⟩
  intro response h
  unfold deserialize_response
  rw [h]
  exact ⟨rfl, rfl, rfl, rfl, rfl, rfl⟩

/-- Witness for C5 as amended, at a response with no `result` field. -/
theorem decoder_absent_or_mismatch_returns_none_witness :
    deserialize_response decodePsbt (Json.obj []) = none
    ∧ deserialize_response decodeWalletProcessPsbt (Json.obj []) = none
    ∧ deserialize_response decodeFinalizedPsbtResponse (Json.obj []) = none
    ∧ deserialize_response decodeString (Json.obj []) = none
    ∧ deserialize_response decodeUnspentList (Json.obj []) = none
    ∧ deserialize_response decodeOptUnspentList (Json.obj []) = some none :=
  decoder_absent_or_mismatch_returns_none.1 (Json.obj []) rfl

/-- C6 counterexample.  With two independently signed variants
`signedPSBT-A` and `signedPSBT-B`, the combine step cannot receive the
list: `combine_psbt` accepts a single PSBT string, and its request carries
a one-element PSBT list, while the spec's combine of both variants would
carry two — so not every element of the signed list appears in the
request. -/
theorem combine_psbt_single_counterexample :
    combine_psbt envC nodeFix "signedPSBT-A" =
      ([combineReq "http://node:18443" "alice" "hunter2" "signedPSBT-A"],
       Outcome.ok "combinedPSBT")
    ∧ innerParamCount (combineReq "http://node:18443" "alice" "hunter2" "signedPSBT-A").params = 1
    ∧ innerParamCount (combineParamsSpec ["signedPSBT-A", "signedPSBT-B"]) = 2 :=
  ⟨rfl, rfl, rfl⟩

/-- C6 as amended.  `combine_psbt` takes a single signed PSBT string; it
issues a non-wallet-scoped `combinepsbt` request whose parameters are the
one-element list containing just that PSBT, and returns the response's
merged PSBT string. -/
theorem combine_psbt_single_variant (env : EnvMap) (node : Node)
    (host user pass psbt s : String)
    (hh : env "RPC_HOST" = some host) (hu : env "RPC_USER" = some user)
    (hp : env "RPC_PASSWORD" = some pass)
    (hnode : node (combineReq host user pass psbt) =
      Except.ok (Json.obj [("result", Json.str s)])) :
    combine_psbt env node psbt = ([combineReq host user pass psbt], Outcome.ok s)
    ∧ (combineReq host user pass psbt).params = Json.arr [Json.arr [Json.str psbt]] := by
  simp only [combineReq] at hnode
  refine ⟨?_, rfl⟩
  unfold combine_psbt
  rw [send_rpc_request_global env node "combinepsbt"
    (Json.arr [Json.arr [Json.str psbt]]) host user pass hh hu hp]
  rw [hnode]
  rfl

/-- Witness for C6 as amended at the concrete fixture node. -/
theorem combine_psbt_single_variant_witness :
    combine_psbt envC nodeFix "signedPSBT" =
      ([combineReq "http://node:18443" "alice" "hunter2" "signedPSBT"],
       Outcome.ok "combinedPSBT")
    ∧ (combineReq "http://node:18443" "alice" "hunter2" "signedPSBT").params =
        Json.arr [Json.arr [Json.str "signedPSBT"]] :=
  combine_psbt_single_variant envC nodeFix "http://node:18443" "alice" "hunter2"
    "signedPSBT" "combinedPSBT" rfl rfl rfl rfl

/-- C3 counterexample.  On a transport-successful response whose `result`
is `null` (shape mismatch for every stage), the create and join stages do
not return a typed recoverable decode error: they panic on the `unwrap` of
the failed decode. -/
theorem stage_malformed_panics_counterexample :
    (create_psbt envC nodeNullAll ⟨"aaa0", 1⟩ mainOutput).2 = Outcome.panicked unwrapMsg
    ∧ (join_psbt envC nodeNullAll).2 = Outcome.panicked unwrapMsg
    ∧ (broadcast_transaction envC nodeNullAll "02000000beef").2 = Outcome.panicked unwrapMsg :=
  ⟨rfl, rfl, rfl⟩

/-- C3 as amended.  For every pipeline stage, a transport-successful
response whose `result` field is absent or does not match the stage's
expected shape — that is, any response on which the decode for the stage's
expected type yields the empty case — makes the stage panic on the `unwrap`
of the failed decode: it never substitutes a default value and never
returns a success outcome, but the failure is a crash, not a typed
recoverable decode error. -/
theorem stages_panic_on_malformed_result (env : EnvMap) (node : Node)
    (host user pass a b : String) (input : Input) (output : List Json)
    (psbt1 psbt2 psbt3 hex : String) (resp1 resp2 resp3 resp4 resp5 resp6 : Json)
    (hh : env "RPC_HOST" = some host) (hu : env "RPC_USER" = some user)
    (hp : env "RPC_PASSWORD" = some pass)
    (hia : env "IFEANYI_WALLET_PSBT" = some a)
    (hcb : env "CODEPLANET_WALLET_PSBT" = some b)
    (hn1 : node ⟨host ++ "/wallet/codeplanet", user, pass, "walletcreatefundedpsbt",
      createParams input output⟩ = Except.ok resp1)
    (hd1 : deserialize_response decodePsbt resp1 = none)
    (hn2 : node ⟨host, user, pass, "joinpsbts",
      Json.arr [Json.arr [Json.str a, Json.str b]]⟩ = Except.ok resp2)
    (hd2 : deserialize_response decodeString resp2 = none)
    (hn3 : node ⟨host ++ "/wallet/codeplanet", user, pass, "walletprocesspsbt",
      Json.arr [Json.str psbt1]⟩ = Except.ok resp3)
    (hd3 : deserialize_response decodeWalletProcessPsbt resp3 = none)
    (hn4 : node ⟨host, user, pass, "combinepsbt",
      Json.arr [Json.arr [Json.str psbt2]]⟩ = Except.ok resp4)
    (hd4 : deserialize_response decodeString resp4 = none)
    (hn5 : node ⟨host, user, pass, "finalizepsbt",
      Json.arr [Json.str psbt3]⟩ = Except.ok resp5)
    (hd5 : deserialize_response decodeFinalizedPsbtResponse resp5 = none)
    (hn6 : node ⟨host, user, pass, "sendrawtransaction",
      Json.arr [Json.str hex]⟩ = Except.ok resp6)
    (hd6 : deserialize_response decodeString resp6 = none) :
    (create_psbt env node input output).2 = Outcome.panicked unwrapMsg
    ∧ (join_psbt env node).2 = Outcome.panicked unwrapMsg
    ∧ (wallet_process_psbt env node psbt1).2 = Outcome.panicked unwrapMsg
    ∧ (combine_psbt env node psbt2).2 = Outcome.panicked unwrapMsg
    ∧ (finalize_psbt env node psbt3).2 = Outcome.panicked unwrapMsg
    ∧ (broadcast_transaction env node hex).2 = Outcome.panicked unwrapMsg := by
  refine ⟨?_, ?_, ?_, ?_, ?_, ?_⟩
  · unfold create_psbt
    rw [send_rpc_request_wallet env node _ _ host user pass hh hu hp, hn1]
    dsimp only
    rw [hd1]
  · unfold join_psbt
    rw [hia]
    dsimp only
    rw [hcb]
    dsimp only
    rw [send_rpc_request_global env node _ _ host user pass hh hu hp, hn2]
    dsimp only
    rw [hd2]
  · unfold wallet_process_psbt
    rw [send_rpc_request_wallet env node _ _ host user pass hh hu hp, hn3]
    dsimp only
    rw [hd3]
  · unfold combine_psbt
    rw [send_rpc_request_global env node _ _ host user pass hh hu hp, hn4]
    dsimp only
    rw [hd4]
  · unfold finalize_psbt
    rw [send_rpc_request_global env node _ _ host user pass hh hu hp, hn5]
    dsimp only
    rw [hd5]
  · unfold broadcast_transaction
    rw [send_rpc_request_global env node _ _ host user pass hh hu hp, hn6]
    dsimp only
    rw [hd6]

/-- Witness for C3 as amended, at a concrete environment and a node whose
six replies are malformed in six different ways (wrong-type result, object
with a missing field, absent `result` field, and `null` result). -/
theorem stages_panic_on_malformed_result_witness :
    (create_psbt envC nodeMalformed ⟨"aaa0", 1⟩ mainOutput).2 = Outcome.panicked unwrapMsg
    ∧ (join_psbt envC nodeMalformed).2 = Outcome.panicked unwrapMsg
    ∧ (wallet_process_psbt envC nodeMalformed "p1").2 = Outcome.panicked unwrapMsg
    ∧ (combine_psbt envC nodeMalformed "p2").2 = Outcome.panicked unwrapMsg
    ∧ (finalize_psbt envC nodeMalformed "p3").2 = Outcome.panicked unwrapMsg
    ∧ (broadcast_transaction envC nodeMalformed "cafe").2 = Outcome.panicked unwrapMsg :=
  stages_panic_on_malformed_result envC nodeMalformed "http://node:18443" "alice" "hunter2"
    "psbtIF" "psbtCP" ⟨"aaa0", 1⟩ mainOutput "p1" "p2" "p3" "cafe"
    (Json.obj [("result", Json.num 7)])
    (Json.obj [("result", Json.arr [Json.str "x"])])
    (Json.obj [("result", Json.obj [("psbt", Json.str "p")])])
    (Json.obj [("result", Json.bool true)])
    (Json.obj [])
    (Json.obj [("result", Json.null)])
    rfl rfl rfl rfl rfl rfl rfl rfl rfl rfl rfl rfl rfl rfl rfl rfl rfl

/-- A successful `create_psbt` run: with credentials present and a node
reply whose result decodes as a `Psbt`, the stage issues exactly one
request and returns the decoded value. -/
theorem create_psbt_run (env : EnvMap) (node : Node) (input : Input) (output : List Json)
    (host user pass : String) (resp : Json) (p : Psbt)
    (hh : env "RPC_HOST" = some host) (hu : env "RPC_USER" = some user)
    (hp : env "RPC_PASSWORD" = some pass)
    (hnode : node ⟨host ++ "/wallet/codeplanet", user, pass, "walletcreatefundedpsbt",
      createParams input output⟩ = Except.ok resp)
    (hdec : deserialize_response decodePsbt resp = some p) :
    create_psbt env node input output =
      ([⟨host ++ "/wallet/codeplanet", user, pass, "walletcreatefundedpsbt",
         createParams input output⟩], Outcome.ok p) := by
  unfold create_psbt
  rw [send_rpc_request_wallet env node "walletcreatefundedpsbt" (createParams input output)
    host user pass hh hu hp, hnode]
  dsimp only
  rw [hdec]

/-- C2 as amended.  For a run in which the node answers `listunspent` with a
well-formed list of at least two unspent outputs and answers the funding
call with a well-formed PSBT, `main` invokes on the transport exactly the
sequence `[listunspent, walletcreatefundedpsbt]`, in that order — it never
invokes the join, sign, combine, finalize or broadcast procedures — and its
final result is printing the created funded PSBT; no transaction id is
produced. -/
theorem main_pipeline_trace (env : EnvMap) (node : Node) (host user pass : String)
    (a b : UnspentTxOutputs) (rest : List UnspentTxOutputs) (resp1 resp2 : Json) (p : Psbt)
    (hh : env "RPC_HOST" = some host) (hu : env "RPC_USER" = some user)
    (hp : env "RPC_PASSWORD" = some pass)
    (h1 : node (listunspentReq host user pass) = Except.ok resp1)
    (h2 : deserialize_response decodeOptUnspentList resp1 = some (some (a :: b :: rest)))
    (h3 : node (createReq host user pass ⟨b.txid, b.vout⟩) = Except.ok resp2)
    (h4 : deserialize_response decodePsbt resp2 = some p) :
    main_run env node =
      ([listunspentReq host user pass, createReq host user pass ⟨b.txid, b.vout⟩],
       MainResult.finished [PrintEv.valHere p]) := by
  simp only [listunspentReq, createReq] at h1 h3 ⊢
  unfold main_run
  rw [send_rpc_request_wallet env node "listunspent" (Json.arr []) host user pass hh hu hp,
    h1]
  dsimp only
  rw [h2]
  dsimp only
  rw [mainLoop, if_neg (by decide : ¬ (0 = 1))]
  rw [mainLoop, if_pos rfl]
  rw [create_psbt_run env node ⟨b.txid, b.vout⟩ mainOutput host user pass resp2 p
    hh hu hp h3 h4]
  dsimp only
  have hstop : mainLoop env node (1 + 1) rest = ([], Except.ok []) :=
    mainLoop_stops env node rest 0
  rw [hstop]
  rfl

/-- Witness for C2 as amended, at the concrete fixture node that answers
every stage. -/
theorem main_pipeline_trace_witness :
    main_run envC nodeFix =
      ([listunspentReq "http://node:18443" "alice" "hunter2",
        createReq "http://node:18443" "alice" "hunter2" ⟨"aaa1", 1⟩],
       MainResult.finished [PrintEv.valHere psbtFix]) :=
  main_pipeline_trace envC nodeFix "http://node:18443" "alice" "hunter2"
    (utxoVal "aaa0" 0) (utxoVal "aaa1" 1) []
    (Json.obj [("result", Json.arr [utxoJson "aaa0" 0, utxoJson "aaa1" 1])])
    (Json.obj [("result", Json.obj [("psbt", Json.str "createdPSBT"),
                                    ("fee", Json.num (mkRat 282 100000)),
                                    ("changepos", Json.num 1)])])
    psbtFix rfl rfl rfl rfl rfl rfl rfl

/-- C2 counterexample.  Even when the node returns well-formed fixtures for
every stage (including join, sign, combine, finalize and broadcast), the
program's invocation sequence is `[listunspent, walletcreatefundedpsbt]` —
not the claimed `[create, join, sign, sign, combine, finalize, broadcast]` —
and its final result is a printed funded PSBT, not the broadcast's
transaction id. -/
theorem main_pipeline_counterexample :
    (main_run envC nodeFix).1.map (fun r => r.method) =
      ["listunspent", "walletcreatefundedpsbt"]
    ∧ (((main_run envC nodeFix).1.map (fun r => r.method)) ==
        ["walletcreatefundedpsbt", "joinpsbts", "walletprocesspsbt", "walletprocesspsbt",
         "combinepsbt", "finalizepsbt", "sendrawtransaction"]) = false
    ∧ (main_run envC nodeFix).2 = MainResult.finished [PrintEv.valHere psbtFix] :=
  ⟨rfl, rfl, rfl⟩
